import Mathlib

/-!
Shallow embedding of the prepAI-prototype interview engine
(`agents/persona.py`, `agents/session_tracker.py`, `agents/evaluation.py`,
`agents/pre_interview_planner.py`, `agents/InterviewSessionService.py`).

Conventions of the embedding:
* Python dicts with a fixed key set become structures; optional keys become
  `Option` fields.
* Calls to the generative-model gateway (`model.generate_content` followed by
  JSON parsing) are modelled as explicit inputs of type
  `Except String (Option α)`: `.error e` is a raised transport exception,
  `.ok none` is text that fails to parse as the expected structure, and
  `.ok (some a)` is a successfully parsed value.  Where a code path may call
  the gateway several times, the gateway is passed as a list of outcomes that
  the calls consume in order.
* Raised Python exceptions become `Except.error` / dedicated failure results;
  a `try/except` boundary that swallows exceptions becomes a total function.
* Wall-clock readings (latency, timestamps) are explicit `Nat` inputs.
-/

namespace PrepAI

/-- One topic of the interview topic graph (the dict produced by the plan
factory and consumed by `PersonaAgent`). -/
structure Topic where
  topic_id : String
  topic_name : String
  goal : String
  dependencies : List String
  deriving Repr, DecidableEq

/-- Per-topic progress record, as initialized by
`PersonaAgent._initialize_session_state`. -/
structure TopicProgress where
  status : String
  attempts : Nat
  goal_achieved : Bool
  qualitative_markers : List String
  deriving Repr, DecidableEq

/-- One stored conversation turn (`{question, answer, timestamp}`) of
`PersonaAgent`. -/
structure ConvTurn where
  question : String
  answer : String
  timestamp : Nat
  deriving Repr, DecidableEq

/-- The live session state kept in Redis by `PersonaAgent` (the fields the
claims are about; the call counters and clock fields are omitted).  The
Python dict `topic_progress` is modelled as an association list with
last-write-wins insertion. -/
structure SessionState where
  current_topic_id : String
  covered_topic_ids : List String
  conversation_history : List ConvTurn
  topic_progress : List (String × TopicProgress)
  deriving Repr, DecidableEq

/-- Python-dict insertion into an association list: replace the binding if
the key is present, append otherwise. -/
def dictInsert (k : String) (v : TopicProgress) :
    List (String × TopicProgress) → List (String × TopicProgress)
  | [] => [(k, v)]
  | p :: rest => if p.1 = k then (k, v) :: rest else p :: dictInsert k v rest

/-- Python-dict lookup in an association list. -/
def dictLookup (k : String) : List (String × TopicProgress) → Option TopicProgress
  | [] => none
  | p :: rest => if p.1 = k then some p.2 else dictLookup k rest

/-- `PersonaAgent._initialize_session_state`: fresh state for a new session.
`current_topic_id` is `topic_graph[0]["topic_id"]` (the literal first entry,
with fallback `"topic_01"` for an empty graph); every topic gets a pending
progress record. -/
def init_session_state (topic_graph : List Topic) : SessionState :=
  { current_topic_id :=
      match topic_graph with
      | [] => "topic_01"
      | t :: _ => t.topic_id
    covered_topic_ids := []
    conversation_history := []
    topic_progress :=
      topic_graph.foldl
        (fun acc t => dictInsert t.topic_id ⟨"pending", 0, false, []⟩ acc) [] }

/-- `PersonaAgent._get_current_topic`: linear scan of the graph for the
topic with the given id. -/
def get_current_topic (topic_graph : List Topic) (topic_id : String) : Option Topic :=
  topic_graph.find? (fun t => t.topic_id == topic_id)

/-- `PersonaAgent._can_start_topic`: all dependencies are covered. -/
def can_start_topic (topic : Topic) (covered_topic_ids : List String) : Bool :=
  topic.dependencies.all (fun dep => covered_topic_ids.contains dep)

/-- `PersonaAgent._mark_topic_completed`: append the id to
`covered_topic_ids` if absent, and (when the id has a progress record) set
its status to completed with the router's qualitative markers. -/
def mark_topic_completed (s : SessionState) (topic_id : String)
    (qualitative_markers : List String) : SessionState :=
  let covered :=
    if s.covered_topic_ids.contains topic_id then s.covered_topic_ids
    else s.covered_topic_ids ++ [topic_id]
  let progress :=
    match dictLookup topic_id s.topic_progress with
    | none => s.topic_progress
    | some tp =>
        dictInsert topic_id
          { tp with status := "completed", goal_achieved := true,
                    qualitative_markers := qualitative_markers }
          s.topic_progress
  { s with covered_topic_ids := covered, topic_progress := progress }

/-- The eligibility scan of `PersonaAgent._advance_to_next_topic`: the first
topic in graph declaration order that is not covered, not current, and whose
dependencies are all covered. -/
def next_eligible_topic (topic_graph : List Topic) (covered_topic_ids : List String)
    (current_topic_id : String) : Option Topic :=
  topic_graph.find? (fun t =>
    !covered_topic_ids.contains t.topic_id &&
    t.topic_id != current_topic_id &&
    can_start_topic t covered_topic_ids)

/-- `PersonaAgent._advance_to_next_topic`: move `current_topic_id` to the
first eligible topic; if the scan finds none, the state is returned
unchanged (there is no terminal sentinel in the code). -/
def advance_to_next_topic (s : SessionState) (topic_graph : List Topic) : SessionState :=
  match next_eligible_topic topic_graph s.covered_topic_ids s.current_topic_id with
  | some t => { s with current_topic_id := t.topic_id }
  | none => s

/-- `PersonaAgent._update_conversation_history`: append the new turn and keep
only the last 10 turns (`history[-10:]`). -/
def update_conversation_history (s : SessionState) (user_answer ai_response : String)
    (timestamp : Nat) : SessionState :=
  let hist := s.conversation_history ++ [⟨ai_response, user_answer, timestamp⟩]
  { s with conversation_history :=
      if hist.length > 10 then hist.drop (hist.length - 10) else hist }

/-- The JSON object the Router prompt asks the model for. -/
structure RouterParsed where
  analysis_summary : String
  goal_achieved : Bool
  next_action : String
  qualitative_markers : List String
  deriving Repr, DecidableEq

/-- The dict returned by `RouterAgent.analyze_response` (success or fallback). -/
structure RouterResult where
  analysis_summary : String
  goal_achieved : Bool
  next_action : String
  qualitative_markers : List String
  router_latency_ms : Nat
  error : Option String
  deriving Repr, DecidableEq

/-- `RouterAgent.analyze_response`: on a successful gateway call return the
parsed classification plus the measured latency; on any exception return the
deterministic fallback dict. -/
def analyze_response (gateway : Except String RouterParsed) (latency_ms : Nat) :
    RouterResult :=
  match gateway with
  | .ok r =>
      { analysis_summary := r.analysis_summary, goal_achieved := r.goal_achieved,
        next_action := r.next_action, qualitative_markers := r.qualitative_markers,
        router_latency_ms := latency_ms, error := none }
  | .error e =>
      { analysis_summary := "Error analyzing response", goal_achieved := false,
        next_action := "GENERATE_FOLLOW_UP", qualitative_markers := ["error_occurred"],
        router_latency_ms := 0, error := some e }

/-- The JSON object the Generator prompt asks the model for. -/
structure GeneratorParsed where
  internal_thought : String
  response_text : String
  deriving Repr, DecidableEq

/-- The dict returned by `GeneratorAgent.generate_response`. -/
structure GeneratorResult where
  internal_thought : String
  response_text : String
  generator_latency_ms : Nat
  error : Option String
  deriving Repr, DecidableEq

/-- `GeneratorAgent.generate_response`: parsed result on success, fixed
fallback utterance on any exception. -/
def generate_response (gateway : Except String GeneratorParsed) (latency_ms : Nat) :
    GeneratorResult :=
  match gateway with
  | .ok g =>
      { internal_thought := g.internal_thought, response_text := g.response_text,
        generator_latency_ms := latency_ms, error := none }
  | .error e =>
      { internal_thought := "Error generating response, using fallback",
        response_text := "I appreciate your response. Let me ask a follow-up question to better understand your approach.",
        generator_latency_ms := 0, error := some e }

/-- `PersonaAgent._generate_simple_response`: canned replies for the
non-generator actions. -/
def generate_simple_response (action : String) (current_topic : Topic) : String :=
  if action == "REDIRECT_TO_TOPIC" then
    "That\x27s an interesting point. Let\x27s focus back on " ++ current_topic.topic_name
      ++ ". " ++ current_topic.goal
  else if action == "ANSWER_CLARIFICATION" then
    "I\x27m here to help clarify any questions you have about the interview process or the scenario we\x27re discussing."
  else
    "Thank you for that response. Let me ask a follow-up question."

/-- The dict returned by `PersonaAgent.process_user_response`; absent dict
keys are `none`.  The success branch carries `success = true` with the
response and updated topic fields; the exception branch carries
`success = false` with `error` and `fallback_response`. -/
structure TurnResult where
  success : Bool
  response_text : Option String
  agent_used : Option String
  router_analysis : Option RouterResult
  current_topic_id : Option String
  covered_topic_ids : Option (List String)
  error : Option String
  fallback_response : Option String
  deriving Repr, DecidableEq

/-- The text shown to the candidate for a turn: `response_text` on success,
`fallback_response` on the exception branch. -/
def TurnResult.utterance (r : TurnResult) : String :=
  (r.response_text).getD ((r.fallback_response).getD "")

/-- The per-turn external inputs of one `process_user_response` call: the
candidate answer, the two gateway outcomes with their measured latencies,
whether the Redis `set` of `_save_session_state` succeeds, and the clock. -/
structure TurnInput where
  user_answer : String
  routerGw : Except String RouterParsed
  routerLat : Nat
  genGw : Except String GeneratorParsed
  genLat : Nat
  save_ok : Bool
  timestamp : Nat

/-- `PersonaAgent.process_user_response`: one full turn.  Returns the result
dict and the Redis store content afterwards (`store` is `none` when no state
is cached for the session).  The body's `try/except` makes this total: the
`ValueError` raised when `current_topic_id` is not in the graph becomes the
`success = false` result; a failing `_save_session_state` is swallowed and
leaves the store unchanged. -/
def process_user_response (store : Option SessionState) (topic_graph : List Topic)
    (inp : TurnInput) : TurnResult × Option SessionState :=
  let s0 := store.getD (init_session_state topic_graph)
  match get_current_topic topic_graph s0.current_topic_id with
  | none =>
      ({ success := false, response_text := none, agent_used := none,
         router_analysis := none, current_topic_id := none, covered_topic_ids := none,
         error := some ("Current topic " ++ s0.current_topic_id ++ " not found in topic graph"),
         fallback_response := some "I appreciate your response. Let me ask a follow-up question to better understand your approach." },
       store)
  | some current_topic =>
      let router_result := analyze_response inp.routerGw inp.routerLat
      let s1 :=
        if router_result.goal_achieved then
          advance_to_next_topic
            (mark_topic_completed s0 current_topic.topic_id router_result.qualitative_markers)
            topic_graph
        else s0
      let useGenerator :=
        router_result.next_action == "GENERATE_FOLLOW_UP"
          || router_result.next_action == "ACKNOWLEDGE_AND_TRANSITION"
      let response_text :=
        if useGenerator then (generate_response inp.genGw inp.genLat).response_text
        else generate_simple_response router_result.next_action current_topic
      let s2 := update_conversation_history s1 inp.user_answer response_text inp.timestamp
      ({ success := true, response_text := some response_text,
         agent_used := some (if useGenerator then "generator" else "simple_logic"),
         router_analysis := some router_result,
         current_topic_id := some s2.current_topic_id,
         covered_topic_ids := some s2.covered_topic_ids,
         error := none, fallback_response := none },
       if inp.save_ok then some s2 else store)

/-- Iterate `process_user_response` over a sequence of turn inputs,
threading the Redis store. -/
def run_turns (topic_graph : List Topic) (inputs : List TurnInput)
    (store : Option SessionState) : Option SessionState :=
  match inputs with
  | [] => store
  | inp :: rest => run_turns topic_graph rest (process_user_response store topic_graph inp).2

/-- One stored turn of `SessionTracker` (`{role, content, timestamp}`). -/
structure TrackerTurn where
  role : String
  content : String
  timestamp : Nat
  deriving Repr, DecidableEq

/-- The history update of `SessionTracker.add_conversation_turn`: append the
new turn and keep only the last 20 (`history[-20:]`). -/
def tracker_add_conversation_turn (conversation_history : List TrackerTurn)
    (role content : String) (timestamp : Nat) : List TrackerTurn :=
  let h := conversation_history ++ [⟨role, content, timestamp⟩]
  if h.length > 20 then h.drop (h.length - 20) else h

/-- The JSON object the `evaluate_answer` prompt asks the model for; the
three required keys are `Option` because the validation in the code checks
their presence.  A rating is the 1-5 score the model assigns a skill. -/
structure EvalParsed where
  scores : Option (List (String × Nat))
  overall_score : Option Int
  ideal_response : Option String
  deriving Repr, DecidableEq

/-- The scorecard dict returned by `evaluate_answer`. -/
structure EvalResult where
  error : Option String
  scores : List (String × Nat)
  overall_score : Int
  ideal_response : Option String
  feedback : Option String
  deriving Repr, DecidableEq

/-- `evaluation.evaluate_answer`, post-gateway logic: strip fences, parse,
check that `scores`, `overall_score` and `ideal_response` are present, and
return the model's object verbatim; every failure path returns an error
dict with `overall_score = 0`.  (The missing-field `ValueError` is caught by
the generic handler, hence its message prefix.) -/
def evaluate_answer (gateway : Except String (Option EvalParsed)) : EvalResult :=
  match gateway with
  | .error e =>
      { error := some ("Unexpected error during evaluation: " ++ e),
        scores := [], overall_score := 0, ideal_response := none,
        feedback := some "Evaluation failed due to unexpected error" }
  | .ok none =>
      { error := some "Failed to parse AI response as JSON",
        scores := [], overall_score := 0, ideal_response := none,
        feedback := some "Unable to parse evaluation results" }
  | .ok (some p) =>
      match p.scores, p.overall_score, p.ideal_response with
      | some sc, some os, some ir =>
          { error := none, scores := sc, overall_score := os,
            ideal_response := some ir, feedback := none }
      | _, _, _ =>
          { error := some "Unexpected error during evaluation: Response missing required fields",
            scores := [], overall_score := 0, ideal_response := none,
            feedback := some "Evaluation failed due to unexpected error" }

/-- The spec's words for the aggregate: the arithmetic mean of the
per-dimension ratings, computed locally.  Used to compare against what the
code actually returns. -/
def spec_mean_of_ratings (scores : List (String × Nat)) : ℚ :=
  (scores.map (fun p => (p.2 : ℚ))).sum / scores.length

/-- The model's parsed JSON for `InterviewEvaluator.evaluate_interview`;
only the parts the claims inspect are modelled (`dimension_evaluations`
reduced to its per-dimension ratings, `overall_assessment` to its
`overall_score`).  Both fields are `Option` because the code never checks
that they are present. -/
structure InterviewEvalParsed where
  dimension_ratings : Option (List (String × Nat))
  overall_score : Option Int
  deriving Repr, DecidableEq

/-- The dict returned by `InterviewEvaluator.evaluate_interview`, minus the
`evaluation_metadata` block of context strings and timestamps that the code
adds on every path (the claims do not concern it).  The failure branch is
the error dict of the `except` handler, which carries no score fields at
all. -/
structure InterviewEvalResult where
  error : Option String
  dimension_ratings : Option (List (String × Nat))
  overall_score : Option Int
  deriving Repr, DecidableEq

/-- `InterviewEvaluator.evaluate_interview`, post-gateway logic: strip
fences, parse, and return the model's object verbatim — no field-presence
validation at all; any exception (transport error or `JSONDecodeError`)
yields the `Evaluation failed: ...` error dict, which has no overall
score. -/
def evaluate_interview (gateway : Except String (Option InterviewEvalParsed)) :
    InterviewEvalResult :=
  match gateway with
  | .ok (some p) =>
      { error := none, dimension_ratings := p.dimension_ratings,
        overall_score := p.overall_score }
  | .ok none =>
      { error := some "Evaluation failed: Expecting value: line 1 column 1 (char 0)",
        dimension_ratings := none, overall_score := none }
  | .error e =>
      { error := some ("Evaluation failed: " ++ e),
        dimension_ratings := none, overall_score := none }

/-- The JSON object `_prioritize_and_select_archetype` asks the model for;
both keys are read with `result[...]`, so a missing key raises. -/
structure ArchetypeParsed where
  top_dimensions : Option String
  selected_archetype : Option String
  deriving Repr, DecidableEq

/-- `PreInterviewPlanner._prioritize_and_select_archetype`: makes exactly one
gateway call (it consumes only the head of the outcome stream) and wraps any
failure — transport error, unparseable text, or missing key — in an
exception; there is no retry. -/
def prioritize_and_select_archetype (role skill seniority : String)
    (gateway : List (Except String (Option ArchetypeParsed))) :
    Except String (String × String) :=
  let failMsg := fun (detail : String) =>
    "LLM failed to prioritize dimension and select archetype for " ++ role ++ " - "
      ++ skill ++ " - " ++ seniority ++ ": " ++ detail
  match gateway with
  | [] => .error (failMsg "no response")
  | g :: _ =>
      match g with
      | .error e => .error (failMsg e)
      | .ok none => .error (failMsg "Expecting value: line 1 column 1 (char 0)")
      | .ok (some p) =>
          match p.top_dimensions, p.selected_archetype with
          | some td, some sa => .ok (td, sa)
          | _, _ => .error (failMsg "KeyError")

/-- The JSON object the plan-factory prompt asks the model for
(`InterviewSessionService.create_interview_plan_with_ai`); only the fields
the validation inspects are modelled. -/
structure PlanParsed where
  topic_graph : Option (List Topic)
  session_narrative : Option String
  deriving Repr, DecidableEq

/-- The `max_retries = 2` loop of `create_interview_plan_with_ai` around the
raw gateway call: a raised call is retried once; the last attempt's
exception propagates.  Parsing happens only after this loop. -/
def generate_with_retry (gateway : List (Except String (Option PlanParsed))) :
    Except String (Option PlanParsed) :=
  match gateway with
  | [] => .error "no response"
  | [g] => g
  | g :: g2 :: _ =>
      match g with
      | .ok v => .ok v
      | .error _ => g2

/-- The gateway-call, parse and topic-graph validation steps of
`InterviewSessionService.create_interview_plan_with_ai`: the retry loop
covers only the call itself; a response that fails to parse as JSON, lacks
`topic_graph`, or carries an empty graph raises at once without another
gateway call. -/
def create_plan_core (gateway : List (Except String (Option PlanParsed))) :
    Except String (List Topic) :=
  match generate_with_retry gateway with
  | .error e => .error e
  | .ok none => .error "Failed to parse AI response as JSON"
  | .ok (some p) =>
      match p.topic_graph with
      | none => .error "Response missing required topic_graph field"
      | some [] => .error "topic_graph cannot be empty"
      | some (t :: ts) => .ok (t :: ts)

/-!  Specification-side definitions (from the spec's words, for comparison
against the code) and concrete fixtures used by witnesses and
counterexamples. -/

/-- The state-machine invariant that actually holds of the code: either the
current topic is not yet covered, or the graph holds no eligible next topic
(the code has no terminal sentinel, so after the last completed topic the
current id stays put and is itself covered). -/
def CoverInv (topic_graph : List Topic) (s : SessionState) : Prop :=
  s.current_topic_id ∉ s.covered_topic_ids ∨
    next_eligible_topic topic_graph s.covered_topic_ids s.current_topic_id = none

/-- The spec's words for session initialization: the first topic of the
graph whose unmet-dependency set is empty (nothing covered yet). -/
def spec_first_satisfiable_topic (topic_graph : List Topic) : Option Topic :=
  topic_graph.find? (fun t => can_start_topic t [])

/-- Fixture: topic `A`, no dependencies. -/
def topicA : Topic := ⟨"A", "Topic A", "Goal A", []⟩

/-- Fixture: topic `B`, depends on `A`. -/
def topicB : Topic := ⟨"B", "Topic B", "Goal B", ["A"]⟩

/-- Fixture: a one-topic graph. -/
def graph1 : List Topic := [topicA]

/-- Fixture: a graph whose declaration-first topic has an unmet dependency. -/
def graphBA : List Topic := [topicB, topicA]

/-- Fixture: a parsed Router classification with the goal achieved. -/
def routerParsedAdvance : RouterParsed :=
  ⟨"good answer", true, "ACKNOWLEDGE_AND_TRANSITION", ["structured"]⟩

/-- Fixture: a turn whose Router gateway parses to a goal-achieved
`ACKNOWLEDGE_AND_TRANSITION` decision and whose Generator gateway succeeds. -/
def advanceInput : TurnInput :=
  { user_answer := "my answer",
    routerGw := .ok routerParsedAdvance,
    routerLat := 5, genGw := .ok ⟨"thought", "Next question"⟩, genLat := 7,
    save_ok := true, timestamp := 1 }

/-- Fixture: a turn on which every gateway call raises. -/
def failInput : TurnInput :=
  { user_answer := "my answer", routerGw := .error "gateway down", routerLat := 5,
    genGw := .error "gateway down", genLat := 7, save_ok := true, timestamp := 1 }

/-- Fixture: the stored state after one goal-achieved turn on `graph1`
starting from an empty store. -/
def stateAfterAdvance1 : SessionState :=
  { current_topic_id := "A", covered_topic_ids := ["A"],
    conversation_history := [⟨"Next question", "my answer", 1⟩],
    topic_progress := [("A", ⟨"completed", 0, true, ["structured"]⟩)] }

/-!  Helper lemmas. -/

theorem dictLookup_dictInsert_self (k : String) (v : TopicProgress)
    (l : List (String × TopicProgress)) : dictLookup k (dictInsert k v l) = some v := by
  induction l with
  | nil => simp [dictInsert, dictLookup]
  | cons p rest ih =>
      by_cases h : p.1 = k
      · simp [dictInsert, dictLookup, h]
      · simp [dictInsert, dictLookup, h, ih]

theorem contains_eq_false_iff (a : String) (l : List String) :
    (l.contains a = false) ↔ a ∉ l := by
  rw [Bool.eq_false_iff]
  exact not_congr List.elem_iff

@[simp] theorem update_history_current (s : SessionState) (ua ar : String) (ts : Nat) :
    (update_conversation_history s ua ar ts).current_topic_id = s.current_topic_id := rfl

@[simp] theorem update_history_covered (s : SessionState) (ua ar : String) (ts : Nat) :
    (update_conversation_history s ua ar ts).covered_topic_ids = s.covered_topic_ids := rfl

@[simp] theorem update_history_progress (s : SessionState) (ua ar : String) (ts : Nat) :
    (update_conversation_history s ua ar ts).topic_progress = s.topic_progress := rfl

@[simp] theorem mark_current (s : SessionState) (tid : String) (m : List String) :
    (mark_topic_completed s tid m).current_topic_id = s.current_topic_id := rfl

@[simp] theorem mark_history (s : SessionState) (tid : String) (m : List String) :
    (mark_topic_completed s tid m).conversation_history = s.conversation_history := rfl

theorem mark_covered (s : SessionState) (tid : String) (m : List String) :
    (mark_topic_completed s tid m).covered_topic_ids =
      if s.covered_topic_ids.contains tid then s.covered_topic_ids
      else s.covered_topic_ids ++ [tid] := rfl

theorem mark_progress_lookup (s : SessionState) (tid : String) (m : List String) :
    dictLookup tid (mark_topic_completed s tid m).topic_progress =
      (dictLookup tid s.topic_progress).map
        (fun tp => { tp with status := "completed", goal_achieved := true,
                             qualitative_markers := m }) := by
  unfold mark_topic_completed
  cases h : dictLookup tid s.topic_progress <;>
    simp [h, dictLookup_dictInsert_self]

@[simp] theorem advance_covered (s : SessionState) (g : List Topic) :
    (advance_to_next_topic s g).covered_topic_ids = s.covered_topic_ids := by
  unfold advance_to_next_topic
  cases next_eligible_topic g s.covered_topic_ids s.current_topic_id <;> rfl

@[simp] theorem advance_progress (s : SessionState) (g : List Topic) :
    (advance_to_next_topic s g).topic_progress = s.topic_progress := by
  unfold advance_to_next_topic
  cases next_eligible_topic g s.covered_topic_ids s.current_topic_id <;> rfl

@[simp] theorem advance_history (s : SessionState) (g : List Topic) :
    (advance_to_next_topic s g).conversation_history = s.conversation_history := by
  unfold advance_to_next_topic
  cases next_eligible_topic g s.covered_topic_ids s.current_topic_id <;> rfl

theorem advance_current (s : SessionState) (g : List Topic) :
    (advance_to_next_topic s g).current_topic_id =
      match next_eligible_topic g s.covered_topic_ids s.current_topic_id with
      | some t => t.topic_id
      | none => s.current_topic_id := by
  unfold advance_to_next_topic
  cases next_eligible_topic g s.covered_topic_ids s.current_topic_id <;> rfl

theorem next_eligible_not_covered {g : List Topic} {covered : List String}
    {cur : String} {t : Topic} (h : next_eligible_topic g covered cur = some t) :
    t.topic_id ∉ covered := by
  have hp := List.find?_some h
  simp only [Bool.and_eq_true, Bool.not_eq_true'] at hp
  exact (contains_eq_false_iff _ _).mp hp.1.1

theorem init_inv (graph : List Topic) : CoverInv graph (init_session_state graph) := by
  left
  simp [init_session_state]

theorem coverinv_update (graph : List Topic) (s : SessionState) (ua ar : String) (ts : Nat) :
    CoverInv graph (update_conversation_history s ua ar ts) ↔ CoverInv graph s := Iff.rfl

theorem advance_mark_inv (graph : List Topic) (s : SessionState) (tid : String)
    (m : List String) :
    CoverInv graph (advance_to_next_topic (mark_topic_completed s tid m) graph) := by
  unfold advance_to_next_topic
  cases h : next_eligible_topic graph (mark_topic_completed s tid m).covered_topic_ids
      (mark_topic_completed s tid m).current_topic_id with
  | none => right; exact h
  | some t => left; exact next_eligible_not_covered h

theorem process_preserves_inv (graph : List Topic) (inp : TurnInput)
    (store : Option SessionState) (h : ∀ s, store = some s → CoverInv graph s) :
    ∀ s', (process_user_response store graph inp).2 = some s' → CoverInv graph s' := by
  intro s' hs'
  have h0 : CoverInv graph (store.getD (init_session_state graph)) := by
    cases store with
    | none => exact init_inv graph
    | some s => exact h s rfl
  simp only [process_user_response] at hs'
  split at hs'
  · exact h s' hs'
  · dsimp only at hs'
    split at hs'
    · cases Option.some.inj hs'
      rw [coverinv_update]
      split
      · exact advance_mark_inv graph _ _ _
      · exact h0
    · exact h s' hs'

theorem run_preserves_inv (graph : List Topic) :
    ∀ (inputs : List TurnInput) (store : Option SessionState),
      (∀ s, store = some s → CoverInv graph s) →
      ∀ s', run_turns graph inputs store = some s' → CoverInv graph s' := by
  intro inputs
  induction inputs with
  | nil =>
      intro store h s' hs'
      simp only [run_turns] at hs'
      exact h s' hs'
  | cons inp rest ih =>
      intro store h s' hs'
      simp only [run_turns] at hs'
      exact ih _ (process_preserves_inv graph inp store h) s' hs'

theorem process_covered_mono (graph : List Topic) (inp : TurnInput)
    (store : Option SessionState) (s s' : SessionState)
    (h : store = some s) (h' : (process_user_response store graph inp).2 = some s') :
    s.covered_topic_ids <+: s'.covered_topic_ids := by
  subst h
  simp only [process_user_response] at h'
  split at h'
  · cases Option.some.inj h'
    exact List.prefix_refl _
  · dsimp only at h'
    split at h'
    · cases Option.some.inj h'
      rw [update_history_covered]
      split
      · rw [advance_covered, mark_covered]
        split
        · exact List.prefix_refl _
        · exact List.prefix_append _ _
      · exact List.prefix_refl _
    · cases Option.some.inj h'
      exact List.prefix_refl _

theorem process_store_isSome (graph : List Topic) (inp : TurnInput)
    (store : Option SessionState) (s : SessionState) (h : store = some s) :
    ∃ t, (process_user_response store graph inp).2 = some t := by
  subst h
  simp only [process_user_response]
  split
  · exact ⟨s, rfl⟩
  · dsimp only
    split
    · exact ⟨_, rfl⟩
    · exact ⟨s, rfl⟩

theorem run_covered_mono (graph : List Topic) :
    ∀ (inputs : List TurnInput) (store : Option SessionState) (s s' : SessionState),
      store = some s → run_turns graph inputs store = some s' →
      s.covered_topic_ids <+: s'.covered_topic_ids := by
  intro inputs
  induction inputs with
  | nil =>
      intro store s s' h h'
      subst h
      cases Option.some.inj h'
      exact List.prefix_refl _
  | cons inp rest ih =>
      intro store s s' h h'
      simp only [run_turns] at h'
      cases hmid : (process_user_response store graph inp).2 with
      | none =>
          obtain ⟨t, ht⟩ := process_store_isSome graph inp store s h
          rw [hmid] at ht
          cases ht
      | some smid =>
          rw [hmid] at h'
          exact (process_covered_mono graph inp store s smid h hmid).trans
            (ih (some smid) smid s' rfl h')

theorem update_history_le_ten (s : SessionState) (ua ar : String) (ts : Nat) :
    (update_conversation_history s ua ar ts).conversation_history.length ≤ 10 := by
  simp only [update_conversation_history]
  split
  · rw [List.length_drop]
    omega
  · next h => omega

theorem update_history_suffix (s : SessionState) (ua ar : String) (ts : Nat) :
    (update_conversation_history s ua ar ts).conversation_history <:+
      s.conversation_history ++ [⟨ar, ua, ts⟩] := by
  simp only [update_conversation_history]
  split
  · exact List.drop_suffix _ _
  · exact List.suffix_refl _

theorem process_history_le_ten (graph : List Topic) (inp : TurnInput)
    (store : Option SessionState)
    (h : ∀ s, store = some s → s.conversation_history.length ≤ 10) :
    ∀ s', (process_user_response store graph inp).2 = some s' →
      s'.conversation_history.length ≤ 10 := by
  intro s' hs'
  simp only [process_user_response] at hs'
  split at hs'
  · exact h s' hs'
  · dsimp only at hs'
    split at hs'
    · cases Option.some.inj hs'
      exact update_history_le_ten _ _ _ _
    · exact h s' hs'

theorem run_history_le_ten (graph : List Topic) :
    ∀ (inputs : List TurnInput) (store : Option SessionState),
      (∀ s, store = some s → s.conversation_history.length ≤ 10) →
      ∀ s', run_turns graph inputs store = some s' →
        s'.conversation_history.length ≤ 10 := by
  intro inputs
  induction inputs with
  | nil =>
      intro store h s' hs'
      simp only [run_turns] at hs'
      exact h s' hs'
  | cons inp rest ih =>
      intro store h s' hs'
      simp only [run_turns] at hs'
      exact ih _ (process_history_le_ten graph inp store h) s' hs'

theorem tracker_add_le_twenty (conversation_history : List TrackerTurn)
    (role content : String) (timestamp : Nat) :
    (tracker_add_conversation_turn conversation_history role content timestamp).length ≤ 20 := by
  simp only [tracker_add_conversation_turn]
  split
  · rw [List.length_drop]
    omega
  · next h => omega

/-!  Claim theorems. -/

/-- C4: if the Model Gateway call made by the Turn Decision Engine
(`RouterAgent.analyze_response`) fails or returns unparseable output, the
engine does not raise: it returns the deterministic default decision
`PROBE_DEEPER` (code value `GENERATE_FOLLOW_UP`) with `goal_achieved =
false`, the placeholder classification summary, an error field recording
the failure, and a latency of zero. -/
theorem C4_router_failure_fallback (e : String) (latency_ms : Nat) :
    analyze_response (.error e) latency_ms =
      { analysis_summary := "Error analyzing response", goal_achieved := false,
        next_action := "GENERATE_FOLLOW_UP", qualitative_markers := ["error_occurred"],
        router_latency_ms := 0, error := some e } := rfl

/-- C5 counterexample: on a graph whose declaration-first topic `B` depends
on the later topic `A`, `_initialize_session_state` still sets
`current_topic_id = "B"`, although the first topic with an empty
unmet-dependency set is `A` — the code never inspects dependencies at
initialization, refuting the claim as stated. -/
theorem C5_counterexample :
    (init_session_state graphBA).current_topic_id = "B" ∧
    (spec_first_satisfiable_topic graphBA).map Topic.topic_id = some "A" ∧
    "B" ≠ "A" := by decide

/-- C5 (amended): for every non-empty topic graph, the freshly initialized
state has `current_topic_id` equal to the id of the literal first topic of
the graph — regardless of whether its dependencies are satisfied — with
empty `covered_topic_ids` and empty `conversation_history`. -/
theorem C5_init_first_topic (t : Topic) (rest : List Topic) :
    (init_session_state (t :: rest)).current_topic_id = t.topic_id ∧
    (init_session_state (t :: rest)).covered_topic_ids = [] ∧
    (init_session_state (t :: rest)).conversation_history = [] :=
  ⟨rfl, rfl, rfl⟩

/-- C8 counterexample: `evaluate_answer` accepts (error-free) a model
response whose `overall_score` (3) differs from the arithmetic mean of the
per-dimension ratings (a single rating of 5, mean 5), and returns that 3
verbatim — the aggregate is not computed locally as the mean. -/
theorem C8_counterexample :
    (evaluate_answer (.ok (some ⟨some [("skill", 5)], some 3, some "ideal"⟩))).overall_score = 3 ∧
    (evaluate_answer (.ok (some ⟨some [("skill", 5)], some 3, some "ideal"⟩))).error = none ∧
    spec_mean_of_ratings [("skill", 5)] = 5 ∧
    (3 : Int) ≠ 5 := by
  refine ⟨rfl, rfl, ?_, by decide⟩
  simp [spec_mean_of_ratings]

/-- C8 (amended): the Post-Interview Evaluator delegates the aggregate to
the model and computes no local mean.  `evaluate_answer` checks only that
the `scores`, `overall_score` and `ideal_response` fields are present and
then returns the model's object — `overall_score` included — verbatim,
with its failure fallbacks setting a locally determined `overall_score` of
0; `InterviewEvaluator.evaluate_interview` performs no field-presence
check at all and returns whatever parsed verbatim (even with both score
fields absent), and its failure fallback carries no overall score.  Hence
two evaluations with the same per-dimension ratings agree on the aggregate
only to the extent the model returns the same value. -/
theorem C8_aggregate_passthrough (sc : List (String × Nat)) (os : Int) (ir e : String)
    (p : InterviewEvalParsed) :
    evaluate_answer (.ok (some ⟨some sc, some os, some ir⟩)) =
      { error := none, scores := sc, overall_score := os,
        ideal_response := some ir, feedback := none } ∧
    (evaluate_answer (.error e)).overall_score = 0 ∧
    (evaluate_answer (.ok none)).overall_score = 0 ∧
    evaluate_interview (.ok (some p)) =
      { error := none, dimension_ratings := p.dimension_ratings,
        overall_score := p.overall_score } ∧
    (evaluate_interview (.ok (some ⟨none, none⟩))).error = none ∧
    (evaluate_interview (.error e)).overall_score = none :=
  ⟨rfl, rfl, rfl, rfl, rfl, rfl⟩

/-- C9 counterexample: with a gateway that returns unparseable output on
the first attempt and a perfectly parseable structure on the second, the
planner's `_prioritize_and_select_archetype` fails at once (wrapping the
parse error) — and the plan factory `create_interview_plan_with_ai`
likewise raises its parse `ValueError` without consuming the second
outcome: malformed output is not retried anywhere. -/
theorem C9_counterexample :
    prioritize_and_select_archetype "Product Manager" "Product Design" "Senior"
        [.ok none, .ok (some ⟨some "dims", some "arch"⟩)] =
      .error "LLM failed to prioritize dimension and select archetype for Product Manager - Product Design - Senior: Expecting value: line 1 column 1 (char 0)" ∧
    create_plan_core [.ok none, .ok (some ⟨some graph1, some "story"⟩)] =
      .error "Failed to parse AI response as JSON" := ⟨rfl, rfl⟩

/-- C9 (amended): on malformed (unparseable) model output the builder fails
immediately — `_prioritize_and_select_archetype` wraps any failure of its
single gateway call in an exception with no retry, and the plan factory's
`max_retries = 2` loop retries only a raised gateway call (transport
error), after which parsing and validation run once: an unparseable first
response propagates as `Failed to parse AI response as JSON` even when a
second attempt would have parsed, while a transport error on the first
call is retried and a parseable second response succeeds. -/
theorem C9_no_retry_on_malformed (role skill seniority : String)
    (rest : List (Except String (Option ArchetypeParsed)))
    (rest2 : List (Except String (Option PlanParsed)))
    (e : String) (t : Topic) (ts : List Topic) (narrative : Option String) :
    (∃ msg, prioritize_and_select_archetype role skill seniority (.ok none :: rest) =
        .error msg) ∧
    create_plan_core (.ok none :: rest2) = .error "Failed to parse AI response as JSON" ∧
    create_plan_core [.error e, .ok (some ⟨some (t :: ts), narrative⟩)] = .ok (t :: ts) := by
  refine ⟨⟨_, rfl⟩, ?_, rfl⟩
  cases rest2 <;> rfl

/-- C2 counterexample: on the one-topic graph, a single goal-achieved turn
from a fresh session leaves `current_topic_id = "A"` while `"A"` is already
in `covered_topic_ids` — the code picks no new current topic when the
eligibility scan finds nothing, refuting the claimed invariant for
reachable states. -/
theorem C2_counterexample :
    run_turns graph1 [advanceInput] none = some stateAfterAdvance1 ∧
    stateAfterAdvance1.current_topic_id ∈ stateAfterAdvance1.covered_topic_ids := by
  exact ⟨by decide, by decide⟩

/-- C2 (amended): for every session state reachable from a fresh
initialization by any sequence of turns, either `current_topic_id` is not
in `covered_topic_ids`, or the graph holds no eligible next topic — in
which case `current_topic_id` stays equal to the just-completed topic and
is itself covered, because the code sets no terminal sentinel. -/
theorem C2_weakened_coverage_invariant (graph : List Topic) (inputs : List TurnInput)
    (s' : SessionState) (h : run_turns graph inputs none = some s') :
    s'.current_topic_id ∉ s'.covered_topic_ids ∨
      next_eligible_topic graph s'.covered_topic_ids s'.current_topic_id = none :=
  run_preserves_inv graph inputs none (fun _ hs => by cases hs) s' h

/-- Witness for C2: the amended invariant evaluated after one goal-achieved
turn on the one-topic graph (the second disjunct holds there). -/
theorem C2_witness :
    run_turns graph1 [advanceInput] none = some stateAfterAdvance1 ∧
    (stateAfterAdvance1.current_topic_id ∉ stateAfterAdvance1.covered_topic_ids ∨
      next_eligible_topic graph1 stateAfterAdvance1.covered_topic_ids
        stateAfterAdvance1.current_topic_id = none) :=
  ⟨by decide, C2_weakened_coverage_invariant graph1 [advanceInput] stateAfterAdvance1 (by decide)⟩

/-- C6: over any sequence of turns on a session, `covered_topic_ids` grows
monotonically — the pre-sequence list is a prefix (hence a subset) of the
post-sequence list, so no turn ever removes a member. -/
theorem C6_monotonic_coverage (graph : List Topic) (inputs : List TurnInput)
    (store : Option SessionState) (s s' : SessionState)
    (h : store = some s) (h' : run_turns graph inputs store = some s') :
    s.covered_topic_ids <+: s'.covered_topic_ids ∧
      s.covered_topic_ids ⊆ s'.covered_topic_ids :=
  have hp := run_covered_mono graph inputs store s s' h h'
  ⟨hp, hp.subset⟩

/-- Witness for C6: coverage monotonicity evaluated on one goal-achieved
turn from the freshly initialized one-topic session. -/
theorem C6_witness :
    run_turns graph1 [advanceInput] (some (init_session_state graph1)) =
      some stateAfterAdvance1 ∧
    ((init_session_state graph1).covered_topic_ids <+: stateAfterAdvance1.covered_topic_ids ∧
      (init_session_state graph1).covered_topic_ids ⊆ stateAfterAdvance1.covered_topic_ids) :=
  ⟨by decide,
   C6_monotonic_coverage graph1 [advanceInput] (some (init_session_state graph1))
     (init_session_state graph1) stateAfterAdvance1 rfl (by decide)⟩

/-- C7: the stored conversation history is bounded — any state reachable by
`PersonaAgent` turns keeps at most 10 turns, `SessionTracker`'s
`add_conversation_turn` keeps at most 20, and each append truncates from
the front (the stored history is a suffix of the old history plus the new
turn). -/
theorem C7_history_bound :
    (∀ (graph : List Topic) (inputs : List TurnInput) (s' : SessionState),
        run_turns graph inputs none = some s' →
        s'.conversation_history.length ≤ 10) ∧
    (∀ (hist : List TrackerTurn) (role content : String) (ts : Nat),
        (tracker_add_conversation_turn hist role content ts).length ≤ 20) ∧
    (∀ (s : SessionState) (ua ar : String) (ts : Nat),
        (update_conversation_history s ua ar ts).conversation_history <:+
          s.conversation_history ++ [⟨ar, ua, ts⟩]) := by
  refine ⟨?_, tracker_add_le_twenty, update_history_suffix⟩
  intro graph inputs s' h
  exact run_history_le_ten graph inputs none (fun _ hs => by cases hs) s' h

/-- Witness for C7: the history bound evaluated after one turn on the
one-topic graph. -/
theorem C7_witness :
    run_turns graph1 [advanceInput] none = some stateAfterAdvance1 ∧
    stateAfterAdvance1.conversation_history.length ≤ 10 :=
  ⟨by decide, C7_history_bound.1 graph1 [advanceInput] stateAfterAdvance1 (by decide)⟩

/-- C1 counterexample: on the one-topic graph a goal-achieved turn leaves
`current_topic_id` equal to `"A"` — the id of the just-completed, covered
topic of the graph — instead of any terminal "interview complete" sentinel
(a value outside the graph's topic ids), refuting the claim's no-eligible-
topic case. -/
theorem C1_counterexample :
    (process_user_response (some (init_session_state graph1)) graph1 advanceInput).1.current_topic_id
      = some "A" ∧
    "A" ∈ graph1.map Topic.topic_id ∧
    (process_user_response (some (init_session_state graph1)) graph1 advanceInput).1.covered_topic_ids
      = some ["A"] := by
  exact ⟨by decide, by decide, by decide⟩

/-- C1 (amended): when the Router's goal-achieved flag is true, one turn of
`process_user_response` appends the current topic's id to
`covered_topic_ids` (if absent), marks its progress record completed with
the Router's qualitative markers, and sets `current_topic_id` to the first
topic in graph declaration order that is not covered, not current, and has
all dependencies covered; if no such topic exists, `current_topic_id`
remains the just-completed topic's id — no terminal sentinel is set. -/
theorem C1_goal_achieved_advances (store : Option SessionState) (graph : List Topic)
    (inp : TurnInput) (s : SessionState) (t : Topic) (r : RouterParsed)
    (hstore : store = some s)
    (ht : get_current_topic graph s.current_topic_id = some t)
    (hr : inp.routerGw = .ok r) (hga : r.goal_achieved = true) :
    (process_user_response store graph inp).1.covered_topic_ids =
      some (if s.covered_topic_ids.contains t.topic_id then s.covered_topic_ids
            else s.covered_topic_ids ++ [t.topic_id]) ∧
    (process_user_response store graph inp).1.current_topic_id =
      some (match next_eligible_topic graph
              (if s.covered_topic_ids.contains t.topic_id then s.covered_topic_ids
               else s.covered_topic_ids ++ [t.topic_id]) s.current_topic_id with
            | some u => u.topic_id
            | none => s.current_topic_id) ∧
    (inp.save_ok = true →
      ∃ s2, (process_user_response store graph inp).2 = some s2 ∧
        dictLookup t.topic_id s2.topic_progress =
          (dictLookup t.topic_id s.topic_progress).map
            (fun tp => { tp with status := "completed", goal_achieved := true,
                                 qualitative_markers := r.qualitative_markers }) ∧
        s2.covered_topic_ids =
          (if s.covered_topic_ids.contains t.topic_id then s.covered_topic_ids
           else s.covered_topic_ids ++ [t.topic_id])) := by
  subst hstore
  simp only [process_user_response, Option.getD_some]
  rw [ht, hr]
  simp only [analyze_response]
  simp only [hga, reduceIte]
  refine ⟨?_, ?_, ?_⟩
  · rw [update_history_covered, advance_covered, mark_covered]
  · rw [update_history_current, advance_current, mark_covered, mark_current]
  · intro hsave
    simp only [hsave, reduceIte]
    refine ⟨_, rfl, ?_, ?_⟩
    · rw [update_history_progress, advance_progress, mark_progress_lookup]
    · rw [update_history_covered, advance_covered, mark_covered]

/-- Witness for C1: the amended advance behaviour evaluated on a concrete
goal-achieved turn on the one-topic graph. -/
theorem C1_witness :
    get_current_topic graph1 (init_session_state graph1).current_topic_id = some topicA ∧
    advanceInput.routerGw = .ok routerParsedAdvance ∧
    routerParsedAdvance.goal_achieved = true ∧
    ((process_user_response (some (init_session_state graph1)) graph1 advanceInput).1.covered_topic_ids =
      some (if (init_session_state graph1).covered_topic_ids.contains topicA.topic_id then
              (init_session_state graph1).covered_topic_ids
            else (init_session_state graph1).covered_topic_ids ++ [topicA.topic_id]) ∧
     (process_user_response (some (init_session_state graph1)) graph1 advanceInput).1.current_topic_id =
      some (match next_eligible_topic graph1
              (if (init_session_state graph1).covered_topic_ids.contains topicA.topic_id then
                 (init_session_state graph1).covered_topic_ids
               else (init_session_state graph1).covered_topic_ids ++ [topicA.topic_id])
              (init_session_state graph1).current_topic_id with
            | some u => u.topic_id
            | none => (init_session_state graph1).current_topic_id) ∧
     (advanceInput.save_ok = true →
      ∃ s2, (process_user_response (some (init_session_state graph1)) graph1 advanceInput).2 = some s2 ∧
        dictLookup topicA.topic_id s2.topic_progress =
          (dictLookup topicA.topic_id (init_session_state graph1).topic_progress).map
            (fun tp => { tp with status := "completed", goal_achieved := true,
                                 qualitative_markers := routerParsedAdvance.qualitative_markers }) ∧
        s2.covered_topic_ids =
          (if (init_session_state graph1).covered_topic_ids.contains topicA.topic_id then
             (init_session_state graph1).covered_topic_ids
           else (init_session_state graph1).covered_topic_ids ++ [topicA.topic_id]))) :=
  ⟨by decide, rfl, rfl,
   C1_goal_achieved_advances (some (init_session_state graph1)) graph1 advanceInput
     (init_session_state graph1) topicA routerParsedAdvance rfl (by decide) rfl rfl⟩

/-- C3: if every Model Gateway call fails, `process_user_response` still
returns a non-empty utterance and a valid, effectively unchanged session
state — the stored state is either untouched or the loaded state with only
the fallback conversation turn appended (the Router fallback never
achieves the goal, so topics never move) — and no exception escapes (the
embedding is a total function whose error branch is the caught
`ValueError`). -/
theorem C3_fallback_availability (store : Option SessionState) (graph : List Topic)
    (inp : TurnInput) (e e' : String)
    (hr : inp.routerGw = .error e) (hg : inp.genGw = .error e') :
    (process_user_response store graph inp).1.utterance ≠ "" ∧
    ((process_user_response store graph inp).2 = store ∨
      (process_user_response store graph inp).2 =
        some (update_conversation_history (store.getD (init_session_state graph))
          inp.user_answer
          "I appreciate your response. Let me ask a follow-up question to better understand your approach."
          inp.timestamp)) := by
  simp only [process_user_response]
  split
  · exact ⟨by simp [TurnResult.utterance], Or.inl rfl⟩
  · rw [hr, hg]
    simp only [analyze_response, generate_response]
    constructor
    · simp [TurnResult.utterance]
    · cases hsave : inp.save_ok with
      | true => right; simp [hsave]
      | false => left; simp [hsave]

/-- Witness for C3: fallback availability evaluated on a concrete turn
whose two gateway calls both raise, on the one-topic graph. -/
theorem C3_witness :
    failInput.routerGw = .error "gateway down" ∧
    failInput.genGw = .error "gateway down" ∧
    ((process_user_response none graph1 failInput).1.utterance ≠ "" ∧
      ((process_user_response none graph1 failInput).2 = none ∨
        (process_user_response none graph1 failInput).2 =
          some (update_conversation_history ((none : Option SessionState).getD (init_session_state graph1))
            failInput.user_answer
            "I appreciate your response. Let me ask a follow-up question to better understand your approach."
            failInput.timestamp))) :=
  ⟨rfl, rfl, C3_fallback_availability none graph1 failInput "gateway down" "gateway down" rfl rfl⟩

/-- C10: a failing Session Store write at the end of a turn is swallowed by
`_save_session_state`: `process_user_response` still returns `success =
true` with exactly the same result dict (updated `current_topic_id` and
`covered_topic_ids`) as a turn whose save succeeds, but the store keeps the
stale pre-turn state, which the next turn will read. -/
theorem C10_save_failure_swallowed (store : Option SessionState) (graph : List Topic)
    (inp : TurnInput) (s : SessionState) (t : Topic)
    (hstore : store = some s)
    (ht : get_current_topic graph s.current_topic_id = some t)
    (hsave : inp.save_ok = false) :
    (process_user_response store graph inp).1.success = true ∧
    (process_user_response store graph inp).1 =
      (process_user_response store graph { inp with save_ok := true }).1 ∧
    (process_user_response store graph inp).2 = some s := by
  subst hstore
  simp only [process_user_response, Option.getD_some]
  rw [ht]
  simp only [hsave, reduceIte]
  refine ⟨?_, ?_, ?_⟩ <;> trivial

/-- Witness for C10: the swallowed save failure evaluated on a concrete
goal-achieved turn with a failing store write. -/
theorem C10_witness :
    get_current_topic graph1 (init_session_state graph1).current_topic_id = some topicA ∧
    ({ advanceInput with save_ok := false } : TurnInput).save_ok = false ∧
    ((process_user_response (some (init_session_state graph1)) graph1
        { advanceInput with save_ok := false }).1.success = true ∧
      (process_user_response (some (init_session_state graph1)) graph1
        { advanceInput with save_ok := false }).1 =
        (process_user_response (some (init_session_state graph1)) graph1
          { ({ advanceInput with save_ok := false } : TurnInput) with save_ok := true }).1 ∧
      (process_user_response (some (init_session_state graph1)) graph1
        { advanceInput with save_ok := false }).2 = some (init_session_state graph1)) :=
  ⟨by decide, rfl,
   C10_save_failure_swallowed (some (init_session_state graph1)) graph1
     { advanceInput with save_ok := false } (init_session_state graph1) topicA rfl
     (by decide) rfl⟩

end PrepAI
